import Mathlib

/-!
Atomic operations, thread identity, register snapshots and the recursive lock

A shallow embedding of

* `src/coreclr/nativeaot/Runtime/freertos/PalInline.h` (interlocked operations),
* `src/coreclr/gc/env/gcenv.structs.h` (`EEThreadId`),
* `src/coreclr/nativeaot/Runtime/freertos/NativeContext.h` (`NATIVE_CONTEXT`),
* `src/native/minipal/mutex.c` (`minipal_mutex_*`).

Machine integers are mathematical integers with explicit wrap-around.  A memory
cell is passed explicitly: every operation takes the content of the cell and
returns the new content together with its C return value.  One call is one
atomic step, which is what the compiler builtins (`__sync_*`) provide.
-/

namespace PalInline

/-! ## Machine integers -/

/-- Conversion to `int32_t`: reduction modulo `2^32` into `[-2^31, 2^31)`. -/
def toInt32 (x : Int) : Int := (x + 2147483648) % 4294967296 - 2147483648

/-- Conversion to `int64_t`: reduction modulo `2^64` into `[-2^63, 2^63)`. -/
def toInt64 (x : Int) : Int :=
  (x + 9223372036854775808) % 18446744073709551616 - 9223372036854775808

/-- Conversion to `uint64_t`: reduction modulo `2^64` into `[0, 2^64)`. -/
def toUInt64 (x : Int) : Int := x % 18446744073709551616

/-- Conversion to `__int128_t`: reduction modulo `2^128` into `[-2^127, 2^127)`. -/
def toInt128 (x : Int) : Int :=
  (x + 170141183460469231731687303715884105728) % 340282366920938463463374607431768211456
    - 170141183460469231731687303715884105728

/-- The values of type `int32_t`. -/
def IsInt32 (x : Int) : Prop := -2147483648 ≤ x ∧ x < 2147483648

/-- The values of type `int64_t`. -/
def IsInt64 (x : Int) : Prop := -9223372036854775808 ≤ x ∧ x < 9223372036854775808

instance (x : Int) : Decidable (IsInt32 x) := by unfold IsInt32; infer_instance

instance (x : Int) : Decidable (IsInt64 x) := by unfold IsInt64; infer_instance

/-! ## Compiler builtins

Each builtin is one indivisible read-modify-write of the cell.  The first
component of the result is the new content of the cell, the second the value
the builtin returns. -/

/-- The builtin `__sync_add_and_fetch(ptr, value)` on an `int32_t` cell. -/
def sync_add_and_fetch32 (cell value : Int) : Int × Int :=
  (toInt32 (cell + value), toInt32 (cell + value))

/-- The builtin `__sync_add_and_fetch(ptr, value)` on an `int64_t` cell. -/
def sync_add_and_fetch64 (cell value : Int) : Int × Int :=
  (toInt64 (cell + value), toInt64 (cell + value))

/-- The builtin `__sync_sub_and_fetch(ptr, value)` on an `int32_t` cell. -/
def sync_sub_and_fetch32 (cell value : Int) : Int × Int :=
  (toInt32 (cell - value), toInt32 (cell - value))

/-- The builtin `__sync_val_compare_and_swap(ptr, oldval, newval)`: when the cell
holds `oldval` it is overwritten with `newval`; the content read is returned. -/
def sync_val_compare_and_swap (cell oldval newval : Int) : Int × Int :=
  (if cell = oldval then newval else cell, cell)

/-! ## The interlocked operations of `PalInline.h`

`PalInterlockedOperationBarrier` only orders memory accesses; it changes no
value and so does not appear in the state-passing functions. -/

/-- The function `PalInterlockedIncrement(pDst)`. -/
def PalInterlockedIncrement (pDst : Int) : Int × Int :=
  let r := sync_add_and_fetch32 pDst 1
  (r.1, r.2)

/-- The function `PalInterlockedIncrement64(pDst)`. -/
def PalInterlockedIncrement64 (pDst : Int) : Int × Int :=
  let r := sync_add_and_fetch64 pDst 1
  (r.1, r.2)

/-- The function `PalInterlockedDecrement(pDst)`. -/
def PalInterlockedDecrement (pDst : Int) : Int × Int :=
  let r := sync_sub_and_fetch32 pDst 1
  (r.1, r.2)

/-- The function `PalInterlockedCompareExchange(pDst, iValue, iComparand)`. -/
def PalInterlockedCompareExchange (pDst iValue iComparand : Int) : Int × Int :=
  let r := sync_val_compare_and_swap pDst iComparand iValue
  (r.1, r.2)

/-- The function `PalInterlockedCompareExchange64(pDst, iValue, iComparand)`. -/
def PalInterlockedCompareExchange64 (pDst iValue iComparand : Int) : Int × Int :=
  let r := sync_val_compare_and_swap pDst iComparand iValue
  (r.1, r.2)

/-- Reading two adjacent `int64_t` words (low word first) as one `__int128_t`. -/
def load128 (w : Int × Int) : Int :=
  w.2 * 18446744073709551616 + toUInt64 w.1

/-- Writing one `__int128_t` as two adjacent `int64_t` words (low word first). -/
def store128 (v : Int) : Int × Int :=
  (toInt64 v, toInt64 (v / 18446744073709551616))

/-- The result record of `PalInterlockedCompareExchange128`. -/
structure Cas128Result where
  /-- The two words at `pDst` after the call, `(pDst[0], pDst[1])`. -/
  dst : Int × Int
  /-- The two words at `pComparandAndResult` after the call. -/
  comparandAndResult : Int × Int
  /-- The returned `uint8_t`. -/
  ret : Nat
deriving DecidableEq, Repr

/-- The function `PalInterlockedCompareExchange128(pDst, iValueHigh, iValueLow, pComparandAndResult)`.
`pDst` and `pComparandAndResult` are given as the pairs of their words `[0]`
and `[1]`. -/
def PalInterlockedCompareExchange128 (pDst : Int × Int) (iValueHigh iValueLow : Int)
    (pComparandAndResult : Int × Int) : Cas128Result :=
  let iComparand : Int :=
    toInt128 (toInt128 (pComparandAndResult.2 * 18446744073709551616)
      + toUInt64 pComparandAndResult.1)
  let iValue : Int :=
    toInt128 (toInt128 (iValueHigh * 18446744073709551616) + toUInt64 iValueLow)
  let r := sync_val_compare_and_swap (load128 pDst) iComparand iValue
  let iResult := r.2
  { dst := store128 r.1
    comparandAndResult := (toInt64 iResult, toInt64 (iResult / 18446744073709551616))
    ret := if iComparand = iResult then 1 else 0 }

/-! ## Histories of increments and decrements -/

/-- One call on a shared 32-bit counter. -/
inductive CounterOp where
  | increment
  | decrement
deriving DecidableEq, Repr

/-- One atomic step: the call applied to the cell. -/
def CounterOp.apply (op : CounterOp) (cell : Int) : Int × Int :=
  match op with
  | .increment => PalInterlockedIncrement cell
  | .decrement => PalInterlockedDecrement cell

/-- Runs a sequence of calls from the cell content `cell`; returns the final
content and the list of the values returned by the calls, in order. -/
def runCounter : Int → List CounterOp → Int × List Int
  | cell, [] => (cell, [])
  | cell, op :: ops =>
    let r := op.apply cell
    let rest := runCounter r.1 ops
    (rest.1, r.2 :: rest.2)

/-- The content of the cell after each call of the sequence, in order. -/
def cellsAfter : Int → List CounterOp → List Int
  | _, [] => []
  | cell, op :: ops => (op.apply cell).1 :: cellsAfter (op.apply cell).1 ops

end PalInline

/-! ## Thread identity (`gcenv.structs.h`) -/

namespace GcEnv

/-- A thread of execution (the caller of an operation). -/
abbrev Thread := Nat

/-- What the platform offers to the `pthread_t` variant of `EEThreadId`: the
identifier `pthread_self()` yields on each calling thread, and `pthread_equal`. -/
structure PthreadApi where
  /-- The value of `pthread_self()` when called on the given thread. -/
  pthread_self : Thread → Nat
  /-- The `int` returned by `pthread_equal(t1, t2)`. -/
  pthread_equal : Nat → Nat → Int

/-- The stub `inline pthread_t pthread_self(void) { return 1; }` compiled for
`TARGET_FREERTOS` without `_POSIX_THREADS`. -/
def freertos_pthread_self (_caller : Thread) : Nat := 1

/-- The stub `inline int pthread_equal(pthread_t t1, pthread_t t2) { return t1 == t2; }`. -/
def freertos_pthread_equal (t1 t2 : Nat) : Int := if t1 = t2 then 1 else 0

/-- The two FreeRTOS stubs together. -/
def freertosStubs : PthreadApi :=
  { pthread_self := freertos_pthread_self
    pthread_equal := freertos_pthread_equal }

/-- A thread library whose `pthread_self()` is a different identifier on each
thread and whose `pthread_equal` compares identifiers. -/
def distinctIds : PthreadApi :=
  { pthread_self := fun caller => caller + 1
    pthread_equal := fun t1 t2 => if t1 = t2 then 1 else 0 }

/-- The class `EEThreadId` of the `TARGET_UNIX || TARGET_FREERTOS` branch. -/
structure EEThreadId where
  m_id : Nat
  m_isValid : Bool
deriving DecidableEq, Repr

/-- The method `EEThreadId::IsCurrentThread()` called on thread `caller`. -/
def EEThreadId.IsCurrentThread (api : PthreadApi) (caller : Thread) (self : EEThreadId) : Bool :=
  self.m_isValid && decide (api.pthread_equal self.m_id (api.pthread_self caller) ≠ 0)

/-- The method `EEThreadId::SetToCurrentThread()` called on thread `caller`. -/
def EEThreadId.SetToCurrentThread (api : PthreadApi) (caller : Thread) (self : EEThreadId) :
    EEThreadId :=
  let s1 := { self with m_id := api.pthread_self caller }
  { s1 with m_isValid := true }

/-- The method `EEThreadId::Clear()`. -/
def EEThreadId.Clear (self : EEThreadId) : EEThreadId :=
  { self with m_isValid := false }

/-- The class `EEThreadId` of the other branch, built on `::GetCurrentThreadId()`. -/
structure EEThreadId64 where
  m_uiId : Nat
deriving DecidableEq, Repr

/-- The method `EEThreadId::IsCurrentThread()` of the `GetCurrentThreadId` variant;
`GetCurrentThreadId` gives the identifier the system call yields on each thread. -/
def EEThreadId64.IsCurrentThread (GetCurrentThreadId : Thread → Nat) (caller : Thread)
    (self : EEThreadId64) : Bool :=
  decide (self.m_uiId = GetCurrentThreadId caller)

/-- The method `EEThreadId::SetToCurrentThread()` of the `GetCurrentThreadId` variant. -/
def EEThreadId64.SetToCurrentThread (GetCurrentThreadId : Thread → Nat) (caller : Thread)
    (_self : EEThreadId64) : EEThreadId64 :=
  { m_uiId := GetCurrentThreadId caller }

/-- The method `EEThreadId::Clear()` of the `GetCurrentThreadId` variant. -/
def EEThreadId64.Clear (_self : EEThreadId64) : EEThreadId64 :=
  { m_uiId := 0 }

/-- A mutating call on a token. -/
inductive TokenCall where
  | SetToCurrentThread (caller : Thread)
  | Clear
deriving DecidableEq, Repr

/-- One call applied to a token of the `pthread_t` variant. -/
def TokenCall.apply (api : PthreadApi) (c : TokenCall) (tok : EEThreadId) : EEThreadId :=
  match c with
  | .SetToCurrentThread caller => tok.SetToCurrentThread api caller
  | .Clear => tok.Clear

/-- One call applied to a token of the `GetCurrentThreadId` variant. -/
def TokenCall.apply64 (GetCurrentThreadId : Thread → Nat) (c : TokenCall) (tok : EEThreadId64) :
    EEThreadId64 :=
  match c with
  | .SetToCurrentThread caller => tok.SetToCurrentThread GetCurrentThreadId caller
  | .Clear => tok.Clear

/-- A history of calls applied to a token, oldest call first. -/
def runHistory (api : PthreadApi) (tok : EEThreadId) (history : List TokenCall) : EEThreadId :=
  history.foldl (fun t c => c.apply api t) tok

/-- A history of calls applied to a token of the `GetCurrentThreadId` variant. -/
def runHistory64 (GetCurrentThreadId : Thread → Nat) (tok : EEThreadId64)
    (history : List TokenCall) : EEThreadId64 :=
  history.foldl (fun t c => c.apply64 GetCurrentThreadId t) tok

end GcEnv

/-! ## Register snapshots (`NativeContext.h`, `TARGET_ARM`) -/

namespace NativeContext

/-- Modelled from the spec: the record `CONTEXT` is declared in `pal.h`, which is
not among the sources; it is taken to hold one `uint32_t` field for each register
that the accessors of `NATIVE_CONTEXT` name. -/
structure CONTEXT where
  Pc : Nat
  Sp : Nat
  Lr : Nat
  R0 : Nat
  R1 : Nat
  R2 : Nat
  R3 : Nat
  R4 : Nat
  R5 : Nat
  R6 : Nat
  R7 : Nat
  R8 : Nat
  R9 : Nat
  R10 : Nat
  R11 : Nat
  R12 : Nat
deriving DecidableEq, Repr

/-- The address of a register field inside `ctx`: what a `uint32_t&` returned by
an accessor, or the `size_t*` handed to a visitor, denotes. -/
inductive Slot where
  | Pc | Sp | Lr
  | R0 | R1 | R2 | R3 | R4 | R5 | R6 | R7 | R8 | R9 | R10 | R11 | R12
deriving DecidableEq, Repr

/-- The struct `NATIVE_CONTEXT`. -/
structure NATIVE_CONTEXT where
  ctx : CONTEXT
deriving DecidableEq, Repr

/-- Reading the `uint32_t` stored in a slot. -/
def NATIVE_CONTEXT.load (self : NATIVE_CONTEXT) : Slot → Nat
  | .Pc => self.ctx.Pc
  | .Sp => self.ctx.Sp
  | .Lr => self.ctx.Lr
  | .R0 => self.ctx.R0
  | .R1 => self.ctx.R1
  | .R2 => self.ctx.R2
  | .R3 => self.ctx.R3
  | .R4 => self.ctx.R4
  | .R5 => self.ctx.R5
  | .R6 => self.ctx.R6
  | .R7 => self.ctx.R7
  | .R8 => self.ctx.R8
  | .R9 => self.ctx.R9
  | .R10 => self.ctx.R10
  | .R11 => self.ctx.R11
  | .R12 => self.ctx.R12

/-- Writing a `uint32_t` into a slot. -/
def NATIVE_CONTEXT.store (self : NATIVE_CONTEXT) (slot : Slot) (v : Nat) : NATIVE_CONTEXT :=
  match slot with
  | .Pc => { ctx := { self.ctx with Pc := v } }
  | .Sp => { ctx := { self.ctx with Sp := v } }
  | .Lr => { ctx := { self.ctx with Lr := v } }
  | .R0 => { ctx := { self.ctx with R0 := v } }
  | .R1 => { ctx := { self.ctx with R1 := v } }
  | .R2 => { ctx := { self.ctx with R2 := v } }
  | .R3 => { ctx := { self.ctx with R3 := v } }
  | .R4 => { ctx := { self.ctx with R4 := v } }
  | .R5 => { ctx := { self.ctx with R5 := v } }
  | .R6 => { ctx := { self.ctx with R6 := v } }
  | .R7 => { ctx := { self.ctx with R7 := v } }
  | .R8 => { ctx := { self.ctx with R8 := v } }
  | .R9 => { ctx := { self.ctx with R9 := v } }
  | .R10 => { ctx := { self.ctx with R10 := v } }
  | .R11 => { ctx := { self.ctx with R11 := v } }
  | .R12 => { ctx := { self.ctx with R12 := v } }

/-- Conversion to `uint32_t`. -/
def toUInt32 (x : Nat) : Nat := x % 4294967296

/-- The accessor `uint32_t& Pc() { return ctx.Pc; }`. -/
def NATIVE_CONTEXT.Pc (_self : NATIVE_CONTEXT) : Slot := Slot.Pc
/-- The accessor `uint32_t& Sp() { return ctx.Sp; }`. -/
def NATIVE_CONTEXT.Sp (_self : NATIVE_CONTEXT) : Slot := Slot.Sp
/-- The accessor `uint32_t& Lr() { return ctx.Lr; }`. -/
def NATIVE_CONTEXT.Lr (_self : NATIVE_CONTEXT) : Slot := Slot.Lr
/-- The accessor `uint32_t& R0() { return ctx.R0; }`. -/
def NATIVE_CONTEXT.R0 (_self : NATIVE_CONTEXT) : Slot := Slot.R0
/-- The accessor `uint32_t& R1() { return ctx.R1; }`. -/
def NATIVE_CONTEXT.R1 (_self : NATIVE_CONTEXT) : Slot := Slot.R1
/-- The accessor `uint32_t& R2() { return ctx.R2; }`. -/
def NATIVE_CONTEXT.R2 (_self : NATIVE_CONTEXT) : Slot := Slot.R2
/-- The accessor `uint32_t& R3() { return ctx.R3; }`. -/
def NATIVE_CONTEXT.R3 (_self : NATIVE_CONTEXT) : Slot := Slot.R3
/-- The accessor `uint32_t& R4() { return ctx.R4; }`. -/
def NATIVE_CONTEXT.R4 (_self : NATIVE_CONTEXT) : Slot := Slot.R4
/-- The accessor `uint32_t& R5() { return ctx.R5; }`. -/
def NATIVE_CONTEXT.R5 (_self : NATIVE_CONTEXT) : Slot := Slot.R5
/-- The accessor `uint32_t& R6() { return ctx.R6; }`. -/
def NATIVE_CONTEXT.R6 (_self : NATIVE_CONTEXT) : Slot := Slot.R6
/-- The accessor `uint32_t& R7() { return ctx.R7; }`. -/
def NATIVE_CONTEXT.R7 (_self : NATIVE_CONTEXT) : Slot := Slot.R7
/-- The accessor `uint32_t& R8() { return ctx.R8; }`. -/
def NATIVE_CONTEXT.R8 (_self : NATIVE_CONTEXT) : Slot := Slot.R8
/-- The accessor `uint32_t& R9() { return ctx.R9; }`. -/
def NATIVE_CONTEXT.R9 (_self : NATIVE_CONTEXT) : Slot := Slot.R9
/-- The accessor `uint32_t& R10() { return ctx.R10; }`. -/
def NATIVE_CONTEXT.R10 (_self : NATIVE_CONTEXT) : Slot := Slot.R10
/-- The accessor `uint32_t& R11() { return ctx.R11; }`. -/
def NATIVE_CONTEXT.R11 (_self : NATIVE_CONTEXT) : Slot := Slot.R11
/-- The accessor `uint32_t& R12() { return ctx.R12; }`. -/
def NATIVE_CONTEXT.R12 (_self : NATIVE_CONTEXT) : Slot := Slot.R12

/-- The method `uintptr_t GetIp() { return (uintptr_t)Pc(); }`. -/
def NATIVE_CONTEXT.GetIp (self : NATIVE_CONTEXT) : Nat := self.load self.Pc

/-- The method `uintptr_t GetSp() { return (uintptr_t)Sp(); }`. -/
def NATIVE_CONTEXT.GetSp (self : NATIVE_CONTEXT) : Nat := self.load self.Sp

/-- The method `void SetIp(uintptr_t ip) { Pc() = (uint32_t)ip; }`. -/
def NATIVE_CONTEXT.SetIp (self : NATIVE_CONTEXT) (ip : Nat) : NATIVE_CONTEXT :=
  self.store self.Pc (toUInt32 ip)

/-- The method `void SetSp(uintptr_t sp) { Sp() = (uint32_t)sp; }`. -/
def NATIVE_CONTEXT.SetSp (self : NATIVE_CONTEXT) (sp : Nat) : NATIVE_CONTEXT :=
  self.store self.Sp (toUInt32 sp)

/-- The method `void SetArg0Reg(uintptr_t val) { R0() = (uint32_t)val; }`. -/
def NATIVE_CONTEXT.SetArg0Reg (self : NATIVE_CONTEXT) (val : Nat) : NATIVE_CONTEXT :=
  self.store self.R0 (toUInt32 val)

/-- The method `void SetArg1Reg(uintptr_t val) { R1() = (uint32_t)val; }`. -/
def NATIVE_CONTEXT.SetArg1Reg (self : NATIVE_CONTEXT) (val : Nat) : NATIVE_CONTEXT :=
  self.store self.R1 (toUInt32 val)

/-- The method `template <typename F> void ForEachPossibleObjectRef(F lambda)`.  The visitor
receives the address of a slot and acts on the memory `w` (of any type `σ`) in
which the snapshot and the state of the visitor live. -/
def NATIVE_CONTEXT.ForEachPossibleObjectRef {σ : Type} (self : NATIVE_CONTEXT)
    (lambda : Slot → σ → σ) (w : σ) : σ :=
  let w := lambda self.R0 w
  let w := lambda self.R1 w
  let w := lambda self.R2 w
  let w := lambda self.R3 w
  let w := lambda self.R4 w
  let w := lambda self.R5 w
  let w := lambda self.R6 w
  let w := lambda self.R7 w
  let w := lambda self.R8 w
  let w := lambda self.R9 w
  let w := lambda self.R10 w
  let w := lambda self.R11 w
  let w := lambda self.R12 w
  w

/-- The visitor that records each address it is handed. -/
def recordSlot (slot : Slot) (log : List Slot) : List Slot := log ++ [slot]

/-- The addresses handed to the visitor by one enumeration, in order. -/
def visitedSlots (self : NATIVE_CONTEXT) : List Slot :=
  self.ForEachPossibleObjectRef recordSlot []

/-- A visitor that only reads and writes the slot it is handed: from its own
state and the value found in the slot, `f` gives its new state and the value it
leaves in the slot.  The memory is the snapshot paired with the visitor state. -/
def slotVisitor {τ : Type} (f : τ → Nat → τ × Nat) (slot : Slot)
    (w : NATIVE_CONTEXT × τ) : NATIVE_CONTEXT × τ :=
  let r := f w.2 (w.1.load slot)
  (w.1.store slot r.2, r.1)

end NativeContext

/-! ## The recursive lock (`minipal/mutex.c`) -/

namespace Minipal

open GcEnv (Thread)

/-- The backend chosen at build time by the `#if` / `#elif` / `#else` chain of
`mutex.c`: `TARGET_FREERTOS`, then `TARGET_WINDOWS` (or a Windows host), then
POSIX threads. -/
inductive Backend where
  | freertos
  | windows
  | pthread
deriving DecidableEq, Repr

/-- The mutex type of a POSIX mutex (attribute). -/
inductive MutexType where
  | PTHREAD_MUTEX_DEFAULT
  | PTHREAD_MUTEX_RECURSIVE
deriving DecidableEq, Repr

/-- The object `pthread_mutexattr_t`. -/
structure pthread_mutexattr_t where
  type : MutexType
deriving DecidableEq, Repr

/-- The object `pthread_mutex_t`: its type, the owner if it is locked, and how
many times the owner holds it. -/
structure pthread_mutex_t where
  type : MutexType
  owner : Option Thread
  count : Nat
deriving DecidableEq, Repr

/-- The object `CRITICAL_SECTION`: the owner if it is held and the recursion count. -/
structure CRITICAL_SECTION where
  owner : Option Thread
  count : Nat
deriving DecidableEq, Repr

/-- The field `_impl` of `minipal_mutex`, one shape per backend. -/
inductive minipal_mutex where
  | placeholder (v : Int)
  | critical_section (cs : CRITICAL_SECTION)
  | pthread (m : pthread_mutex_t)
deriving DecidableEq, Repr

/-- The library primitives `minipal_mutex_init` may call. -/
inductive Primitive where
  | pthread_mutexattr_init
  | pthread_mutexattr_settype
  | pthread_mutex_init
  | pthread_mutexattr_destroy
  | InitializeCriticalSection
deriving DecidableEq, Repr

/-- The status each POSIX primitive returns when it is called during one run of
`minipal_mutex_init` (`0` is success). -/
structure PthreadStatus where
  mutexattr_init : Int
  mutexattr_settype : Int
  mutex_init : Int
  mutexattr_destroy : Int
deriving DecidableEq, Repr

/-- The status a primitive returns when called (`InitializeCriticalSection`
returns nothing and counts as success). -/
def PthreadStatus.returned (status : PthreadStatus) : Primitive → Int
  | .pthread_mutexattr_init => status.mutexattr_init
  | .pthread_mutexattr_settype => status.mutexattr_settype
  | .pthread_mutex_init => status.mutex_init
  | .pthread_mutexattr_destroy => status.mutexattr_destroy
  | .InitializeCriticalSection => 0

/-- POSIX `pthread_mutex_init(mutex, attr)` when it succeeds: an unlocked mutex
of the type held by the attribute object. -/
def pthread_mutex_init_ok (attr : pthread_mutexattr_t) : pthread_mutex_t :=
  { type := attr.type, owner := none, count := 0 }

/-- The Win32 primitive `InitializeCriticalSection`: an unowned critical section. -/
def InitializeCriticalSection : CRITICAL_SECTION :=
  { owner := none, count := 0 }

/-- POSIX `pthread_mutex_lock` called on thread `caller`.  `none` means that the
call does not return in this state of the mutex (the caller stays blocked);
otherwise the status and the new state. -/
def pthread_mutex_lock (m : pthread_mutex_t) (caller : Thread) : Option (Int × pthread_mutex_t) :=
  match m.owner with
  | none => some (0, { m with owner := some caller, count := 1 })
  | some o =>
    if o = caller then
      match m.type with
      | .PTHREAD_MUTEX_RECURSIVE => some (0, { m with count := m.count + 1 })
      | .PTHREAD_MUTEX_DEFAULT => none
    else none

/-- POSIX `pthread_mutex_unlock` called on thread `caller`: status and new state.
A caller that does not own the mutex gets a non-zero status (`EPERM`). -/
def pthread_mutex_unlock (m : pthread_mutex_t) (caller : Thread) : Int × pthread_mutex_t :=
  if m.owner = some caller then
    if m.count ≤ 1 then (0, { m with owner := none, count := 0 })
    else (0, { m with count := m.count - 1 })
  else (1, m)

/-- The Win32 primitive `EnterCriticalSection` called on thread `caller`; `none` means the caller
stays blocked in this state. -/
def EnterCriticalSection (cs : CRITICAL_SECTION) (caller : Thread) : Option CRITICAL_SECTION :=
  match cs.owner with
  | none => some { owner := some caller, count := 1 }
  | some o => if o = caller then some { cs with count := cs.count + 1 } else none

/-- The Win32 primitive `LeaveCriticalSection` called on thread `caller` (the owner). -/
def LeaveCriticalSection (cs : CRITICAL_SECTION) (caller : Thread) : CRITICAL_SECTION :=
  if cs.owner = some caller then
    if cs.count ≤ 1 then { owner := none, count := 0 }
    else { cs with count := cs.count - 1 }
  else cs

/-- What one run of `minipal_mutex_init` yields. -/
structure InitResult where
  /-- The returned `bool`. -/
  ret : Bool
  /-- The content of `*mtx` after the call. -/
  mtx : minipal_mutex
  /-- The primitives that were called, in order. -/
  calls : List Primitive
deriving DecidableEq, Repr

/-- The function `bool minipal_mutex_init(minipal_mutex* mtx)` built for `backend`; `status`
gives what the POSIX primitives return, `mtx` the content of `*mtx` on entry. -/
def minipal_mutex_init (backend : Backend) (status : PthreadStatus) (mtx : minipal_mutex) :
    InitResult :=
  match backend with
  | .freertos => { ret := true, mtx := .placeholder 0, calls := [] }
  | .windows =>
    { ret := true, mtx := .critical_section InitializeCriticalSection,
      calls := [.InitializeCriticalSection] }
  | .pthread =>
    let mutexAttributes : pthread_mutexattr_t := { type := .PTHREAD_MUTEX_DEFAULT }
    let st := status.mutexattr_init
    if st ≠ 0 then
      { ret := false, mtx := mtx, calls := [.pthread_mutexattr_init] }
    else
      let st := status.mutexattr_settype
      let mutexAttributes : pthread_mutexattr_t :=
        if st = 0 then { mutexAttributes with type := .PTHREAD_MUTEX_RECURSIVE }
        else mutexAttributes
      if st = 0 then
        let st := status.mutex_init
        let mtx := if st = 0 then .pthread (pthread_mutex_init_ok mutexAttributes) else mtx
        { ret := decide (st = 0), mtx := mtx,
          calls := [.pthread_mutexattr_init, .pthread_mutexattr_settype, .pthread_mutex_init,
                    .pthread_mutexattr_destroy] }
      else
        { ret := decide (st = 0), mtx := mtx,
          calls := [.pthread_mutexattr_init, .pthread_mutexattr_settype,
                    .pthread_mutexattr_destroy] }

/-- The function `void minipal_mutex_enter(minipal_mutex* mtx)` called on thread `caller`.
`none` means the call does not return in this state of the lock. -/
def minipal_mutex_enter (mtx : minipal_mutex) (caller : Thread) : Option minipal_mutex :=
  match mtx with
  | .placeholder v => some (.placeholder v)
  | .critical_section cs => (EnterCriticalSection cs caller).map .critical_section
  | .pthread m => (pthread_mutex_lock m caller).map (fun r => .pthread r.2)

/-- The function `void minipal_mutex_leave(minipal_mutex* mtx)` called on thread `caller`. -/
def minipal_mutex_leave (mtx : minipal_mutex) (caller : Thread) : minipal_mutex :=
  match mtx with
  | .placeholder v => .placeholder v
  | .critical_section cs => .critical_section (LeaveCriticalSection cs caller)
  | .pthread m => .pthread (pthread_mutex_unlock m caller).2

/-- A call on a lock. -/
inductive LockCall where
  | enter (caller : Thread)
  | leave (caller : Thread)
deriving DecidableEq, Repr

/-- Runs the calls in order; `none` when one of the `enter` calls cannot return
in the state reached before it. -/
def runLock : minipal_mutex → List LockCall → Option minipal_mutex
  | mtx, [] => some mtx
  | mtx, .enter caller :: rest =>
    match minipal_mutex_enter mtx caller with
    | none => none
    | some mtx1 => runLock mtx1 rest
  | mtx, .leave caller :: rest => runLock (minipal_mutex_leave mtx caller) rest

/-- All status codes zero: every POSIX primitive succeeds. -/
def allSucceed : PthreadStatus :=
  { mutexattr_init := 0, mutexattr_settype := 0, mutex_init := 0, mutexattr_destroy := 0 }

/-- The lock produced by a successful `minipal_mutex_init` on `backend`. -/
def freshLock (backend : Backend) : minipal_mutex :=
  (minipal_mutex_init backend allSucceed (.placeholder 0)).mtx

end Minipal

/-! # Theorems -/

namespace PalInline

theorem toInt32_of_isInt32 {x : Int} (h : IsInt32 x) : toInt32 x = x := by
  unfold IsInt32 at h
  unfold toInt32
  omega

theorem toInt32_add_one (x : Int) : toInt32 (toInt32 x + 1) = toInt32 (x + 1) := by
  unfold toInt32
  omega

theorem toInt32_sub_one (x : Int) : toInt32 (toInt32 x - 1) = toInt32 (x - 1) := by
  unfold toInt32
  omega

theorem toInt32_shift (x d : Int) : toInt32 (toInt32 x + d) = toInt32 (x + d) := by
  unfold toInt32
  omega

/-- The final content after a run, for an arbitrary starting integer, as soon as
the wrap-around is applied to the start as well. -/
theorem runCounter_final_aux (ops : List CounterOp) (v : Int) :
    toInt32 (runCounter v ops).1
      = toInt32 (v + (ops.count .increment : Int) - (ops.count .decrement : Int)) := by
  induction ops generalizing v with
  | nil => simp [runCounter]
  | cons op ops ih =>
    cases op
    · simp only [runCounter, CounterOp.apply, PalInterlockedIncrement, sync_add_and_fetch32]
      rw [ih]
      have h1 : (List.count CounterOp.increment (CounterOp.increment :: ops) : Int)
          = (List.count CounterOp.increment ops : Int) + 1 := by simp
      have h2 : (List.count CounterOp.decrement (CounterOp.increment :: ops) : Int)
          = (List.count CounterOp.decrement ops : Int) := by simp
      rw [h1, h2]
      have := toInt32_shift (v + 1)
        ((List.count CounterOp.increment ops : Int) - (List.count CounterOp.decrement ops : Int))
      rw [show toInt32 (v + 1) + ↑(List.count CounterOp.increment ops)
            - ↑(List.count CounterOp.decrement ops)
          = toInt32 (v + 1) + ((List.count CounterOp.increment ops : Int)
            - (List.count CounterOp.decrement ops : Int)) by ring, this]
      congr 1
      ring
    · simp only [runCounter, CounterOp.apply, PalInterlockedDecrement, sync_sub_and_fetch32]
      rw [ih]
      have h1 : (List.count CounterOp.increment (CounterOp.decrement :: ops) : Int)
          = (List.count CounterOp.increment ops : Int) := by simp
      have h2 : (List.count CounterOp.decrement (CounterOp.decrement :: ops) : Int)
          = (List.count CounterOp.decrement ops : Int) + 1 := by simp
      rw [h1, h2]
      have := toInt32_shift (v - 1)
        ((List.count CounterOp.increment ops : Int) - (List.count CounterOp.decrement ops : Int))
      rw [show toInt32 (v - 1) + ↑(List.count CounterOp.increment ops)
            - ↑(List.count CounterOp.decrement ops)
          = toInt32 (v - 1) + ((List.count CounterOp.increment ops : Int)
            - (List.count CounterOp.decrement ops : Int)) by ring, this]
      congr 1
      ring

theorem toInt32_isInt32 (x : Int) : IsInt32 (toInt32 x) := by
  unfold IsInt32 toInt32
  omega

theorem apply_isInt32 (op : CounterOp) (v : Int) : IsInt32 (op.apply v).1 := by
  cases op
  · exact toInt32_isInt32 _
  · exact toInt32_isInt32 _

theorem runCounter_isInt32 (ops : List CounterOp) (v : Int) (h : IsInt32 v) :
    IsInt32 (runCounter v ops).1 := by
  induction ops generalizing v with
  | nil => simpa [runCounter] using h
  | cons op ops ih =>
    simp only [runCounter]
    exact ih _ (apply_isInt32 op v)

theorem runCounter_final (ops : List CounterOp) (v : Int) (h : IsInt32 v) :
    (runCounter v ops).1
      = toInt32 (v + (ops.count .increment : Int) - (ops.count .decrement : Int)) := by
  rw [← runCounter_final_aux, toInt32_of_isInt32 (runCounter_isInt32 ops v h)]

theorem runCounter_returns (ops : List CounterOp) (v : Int) :
    (runCounter v ops).2 = cellsAfter v ops := by
  induction ops generalizing v with
  | nil => rfl
  | cons op ops ih =>
    simp only [runCounter, cellsAfter]
    rw [ih]
    cases op <;> rfl

end PalInline

namespace PalInline

/-- Claim C1: for every cell content `c` and every pair `(new, old)`,
`PalInterlockedCompareExchange(dst, new, old)` and `PalInterlockedCompareExchange64`
leave the cell holding `new` when `c = old` and holding `c` otherwise, and in both
cases return `c`, the content before the operation. -/
theorem compareExchange_contract (c new old : Int) :
    (PalInterlockedCompareExchange c new old).1 = (if c = old then new else c)
    ∧ (PalInterlockedCompareExchange c new old).2 = c
    ∧ (PalInterlockedCompareExchange64 c new old).1 = (if c = old then new else c)
    ∧ (PalInterlockedCompareExchange64 c new old).2 = c := by
  simp [PalInterlockedCompareExchange, PalInterlockedCompareExchange64,
    sync_val_compare_and_swap]

/-- Claim C2: for all signed 64-bit words, `PalInterlockedCompareExchange128`
returns non-zero exactly when the low and the high word of the cell both equal
the comparand words; on success the cell becomes `(iValueLow, iValueHigh)`, on
failure it is unchanged; in both cases `pComparandAndResult` ends up holding the
low and high word the cell held before. -/
theorem compareExchange128_contract (dstLow dstHigh iValueHigh iValueLow cmpLow cmpHigh : Int)
    (hdl : IsInt64 dstLow) (hdh : IsInt64 dstHigh) (hvh : IsInt64 iValueHigh)
    (hvl : IsInt64 iValueLow) (hcl : IsInt64 cmpLow) (hch : IsInt64 cmpHigh) :
    let r := PalInterlockedCompareExchange128 (dstLow, dstHigh) iValueHigh iValueLow
      (cmpLow, cmpHigh)
    (r.ret ≠ 0 ↔ (dstLow = cmpLow ∧ dstHigh = cmpHigh))
    ∧ ((dstLow = cmpLow ∧ dstHigh = cmpHigh) → r.dst = (iValueLow, iValueHigh))
    ∧ (¬ (dstLow = cmpLow ∧ dstHigh = cmpHigh) → r.dst = (dstLow, dstHigh))
    ∧ r.comparandAndResult = (dstLow, dstHigh) := by
  unfold IsInt64 at hdl hdh hvh hvl hcl hch
  simp only [PalInterlockedCompareExchange128, sync_val_compare_and_swap, load128, store128,
    toInt128, toInt64, toUInt64]
  refine ⟨?_, ?_, ?_, ?_⟩
  · constructor
    · intro h
      by_contra hne
      apply h
      rw [if_neg]
      intro heq
      apply hne
      constructor <;> omega
    · rintro ⟨rfl, rfl⟩
      rw [if_pos]
      · decide
      · omega
  · rintro ⟨rfl, rfl⟩
    rw [if_pos (by omega)]
    apply Prod.ext <;> simp only <;> omega
  · intro hne
    rw [if_neg]
    · apply Prod.ext <;> simp only <;> omega
    · intro heq
      apply hne
      constructor <;> omega
  · apply Prod.ext <;> simp only <;> omega

/-- A double-width compare-and-exchange on negative words, where the comparison
succeeds. -/
theorem compareExchange128_contract_witness :
    IsInt64 (-1) ∧ IsInt64 (-5) ∧ IsInt64 (-7) ∧ IsInt64 (-2) ∧
    ((PalInterlockedCompareExchange128 (-1, -5) (-7) (-2) (-1, -5)).ret ≠ 0
        ↔ ((-1 : Int) = -1 ∧ (-5 : Int) = -5))
    ∧ (((-1 : Int) = -1 ∧ (-5 : Int) = -5)
        → (PalInterlockedCompareExchange128 (-1, -5) (-7) (-2) (-1, -5)).dst = (-2, -7))
    ∧ (¬ ((-1 : Int) = -1 ∧ (-5 : Int) = -5)
        → (PalInterlockedCompareExchange128 (-1, -5) (-7) (-2) (-1, -5)).dst = (-1, -5))
    ∧ (PalInterlockedCompareExchange128 (-1, -5) (-7) (-2) (-1, -5)).comparandAndResult
        = (-1, -5) :=
  ⟨by decide, by decide, by decide, by decide,
    compareExchange128_contract (-1) (-5) (-7) (-2) (-1) (-5)
      (by decide) (by decide) (by decide) (by decide) (by decide) (by decide)⟩

/-- Claim C3: from every 32-bit start value and for every finite sequence of
`PalInterlockedIncrement` / `PalInterlockedDecrement` calls (each one atomic step,
in whatever order the threads' calls are interleaved), the final content is the
start plus the number of increments minus the number of decrements in 32-bit
two's-complement arithmetic, every call returns the content right after itself,
and 200,000 increments from 0 leave exactly 200,000. -/
theorem counter_no_lost_update (v0 : Int) (h0 : IsInt32 v0) (ops : List CounterOp) :
    (runCounter v0 ops).1
        = toInt32 (v0 + (ops.count .increment : Int) - (ops.count .decrement : Int))
    ∧ (runCounter v0 ops).2 = cellsAfter v0 ops
    ∧ (∀ ops2 : List CounterOp, ops2.Perm ops → (runCounter v0 ops2).1 = (runCounter v0 ops).1)
    ∧ (runCounter 0 (List.replicate 200000 CounterOp.increment)).1 = 200000 := by
  refine ⟨runCounter_final ops v0 h0, runCounter_returns ops v0, ?_, ?_⟩
  · intro ops2 hp
    rw [runCounter_final ops v0 h0, runCounter_final ops2 v0 h0, hp.count_eq, hp.count_eq]
  · rw [runCounter_final _ 0 (by decide), List.count_replicate_self, List.count_replicate]
    rw [if_neg (by decide)]
    decide

/-- A run that wraps around: two increments and one decrement from `2^31 - 1`. -/
theorem counter_no_lost_update_witness :
    IsInt32 2147483647
    ∧ (runCounter 2147483647 [.increment, .increment, .decrement]).1 = -2147483648
    ∧ (runCounter 2147483647 [.increment, .increment, .decrement]).2
        = [-2147483648, -2147483647, -2147483648] :=
  ⟨by decide,
    (counter_no_lost_update 2147483647 (by decide) [.increment, .increment, .decrement]).1.trans
      (by decide),
    (counter_no_lost_update 2147483647 (by decide) [.increment, .increment, .decrement]).2.1.trans
      (by decide)⟩

end PalInline

namespace GcEnv

theorem runHistory_snoc (api : PthreadApi) (tok : EEThreadId) (history : List TokenCall)
    (c : TokenCall) :
    runHistory api tok (history ++ [c]) = c.apply api (runHistory api tok history) := by
  simp [runHistory, List.foldl_append]

theorem runHistory64_snoc (G : Thread → Nat) (tok : EEThreadId64) (history : List TokenCall)
    (c : TokenCall) :
    runHistory64 G tok (history ++ [c]) = c.apply64 G (runHistory64 G tok history) := by
  simp [runHistory64, List.foldl_append]

/-- After a history ending in `c`, the `pthread_t` token answers `true` on `U`
exactly when `c` set it on a thread with the identifier of `U`. -/
theorem isCurrentThread_after (api : PthreadApi)
    (hequal : ∀ a b, api.pthread_equal a b ≠ 0 ↔ a = b)
    (tok : EEThreadId) (history : List TokenCall) (c : TokenCall) (U : Thread) :
    (runHistory api tok (history ++ [c])).IsCurrentThread api U = true
      ↔ ∃ T, c = .SetToCurrentThread T ∧ api.pthread_self T = api.pthread_self U := by
  rw [runHistory_snoc]
  cases c with
  | SetToCurrentThread T =>
    simp [TokenCall.apply, EEThreadId.SetToCurrentThread, EEThreadId.IsCurrentThread, hequal]
  | Clear =>
    simp [TokenCall.apply, EEThreadId.Clear, EEThreadId.IsCurrentThread]

/-- The same for the `GetCurrentThreadId` token, when no thread has identifier `0`. -/
theorem isCurrentThread64_after (G : Thread → Nat) (hreal : ∀ t, G t ≠ 0)
    (tok : EEThreadId64) (history : List TokenCall) (c : TokenCall) (U : Thread) :
    (runHistory64 G tok (history ++ [c])).IsCurrentThread G U = true
      ↔ ∃ T, c = .SetToCurrentThread T ∧ G T = G U := by
  rw [runHistory64_snoc]
  cases c with
  | SetToCurrentThread T =>
    simp [TokenCall.apply64, EEThreadId64.SetToCurrentThread, EEThreadId64.IsCurrentThread]
  | Clear =>
    have := hreal U
    simp [TokenCall.apply64, EEThreadId64.Clear, EEThreadId64.IsCurrentThread]
    omega

theorem freertos_pthread_equal_spec (a b : Nat) :
    freertosStubs.pthread_equal a b ≠ 0 ↔ a = b := by
  simp [freertosStubs, freertos_pthread_equal]

/-- Claim C4 as stated fails with the FreeRTOS stubs: thread `0` sets the token,
and `IsCurrentThread()` called on thread `1` returns `true` although the most
recent call was not a `SetToCurrentThread` made by thread `1`. -/
theorem isCurrentThread_true_on_other_thread :
    ¬ ((runHistory freertosStubs { m_id := 0, m_isValid := false }
          [TokenCall.SetToCurrentThread 0]).IsCurrentThread freertosStubs 1 = true
        ↔ [TokenCall.SetToCurrentThread 0].getLast? = some (TokenCall.SetToCurrentThread 1)) := by
  decide

/-- Claim C4, amended: after every non-empty history of `SetToCurrentThread` and
`Clear` calls, `IsCurrentThread()` called on `U` returns `true` exactly when the
most recent call was a `SetToCurrentThread` made on a thread whose current-thread
identifier equals that of `U`.  Where the identifiers of distinct threads differ
that thread is `U` itself; with the FreeRTOS stubs (`pthread_self()` is `1`
everywhere) it is every thread, so the answer is `true` on every thread after any
`SetToCurrentThread`.  After `Clear` the answer is `false` on every thread (for
the `GetCurrentThreadId` variant because no thread has identifier `0`). -/
theorem isCurrentThread_iff_last_set_same_id (api : PthreadApi)
    (hequal : ∀ a b, api.pthread_equal a b ≠ 0 ↔ a = b)
    (GetCurrentThreadId : Thread → Nat) (hreal : ∀ t, GetCurrentThreadId t ≠ 0)
    (tok : EEThreadId) (tok64 : EEThreadId64) (history : List TokenCall) (c : TokenCall)
    (U : Thread) :
    ((runHistory api tok (history ++ [c])).IsCurrentThread api U = true
      ↔ ∃ T, c = .SetToCurrentThread T ∧ api.pthread_self T = api.pthread_self U)
    ∧ ((runHistory64 GetCurrentThreadId tok64 (history ++ [c])).IsCurrentThread
          GetCurrentThreadId U = true
      ↔ ∃ T, c = .SetToCurrentThread T ∧ GetCurrentThreadId T = GetCurrentThreadId U)
    ∧ (Function.Injective api.pthread_self →
        ((runHistory api tok (history ++ [c])).IsCurrentThread api U = true
          ↔ c = .SetToCurrentThread U))
    ∧ (Function.Injective GetCurrentThreadId →
        ((runHistory64 GetCurrentThreadId tok64 (history ++ [c])).IsCurrentThread
            GetCurrentThreadId U = true
          ↔ c = .SetToCurrentThread U))
    ∧ ((runHistory freertosStubs tok (history ++ [c])).IsCurrentThread freertosStubs U = true
        ↔ c ≠ .Clear)
    ∧ (runHistory api tok (history ++ [.Clear])).IsCurrentThread api U = false
    ∧ (runHistory64 GetCurrentThreadId tok64 (history ++ [.Clear])).IsCurrentThread
        GetCurrentThreadId U = false := by
  have h1 := isCurrentThread_after api hequal tok history c U
  have h2 := isCurrentThread64_after GetCurrentThreadId hreal tok64 history c U
  refine ⟨h1, h2, ?_, ?_, ?_, ?_, ?_⟩
  · intro hinj
    rw [h1]
    constructor
    · rintro ⟨T, rfl, hT⟩
      rw [hinj hT]
    · intro h
      exact ⟨U, h, rfl⟩
  · intro hinj
    rw [h2]
    constructor
    · rintro ⟨T, rfl, hT⟩
      rw [hinj hT]
    · intro h
      exact ⟨U, h, rfl⟩
  · rw [isCurrentThread_after freertosStubs freertos_pthread_equal_spec]
    cases c with
    | SetToCurrentThread T => simp [freertosStubs, freertos_pthread_self]
    | Clear => simp
  · have h := isCurrentThread_after api hequal tok history .Clear U
    cases hb : (runHistory api tok (history ++ [.Clear])).IsCurrentThread api U with
    | false => rfl
    | true =>
      obtain ⟨T, hT, _⟩ := h.mp hb
      cases hT
  · have h := isCurrentThread64_after GetCurrentThreadId hreal tok64 history .Clear U
    cases hb : (runHistory64 GetCurrentThreadId tok64 (history ++ [.Clear])).IsCurrentThread
        GetCurrentThreadId U with
    | false => rfl
    | true =>
      obtain ⟨T, hT, _⟩ := h.mp hb
      cases hT

/-- Identifiers `t + 1`: thread `7` sets a token that was set by thread `3` and
cleared before; the token then answers `true` on thread `7`. -/
theorem isCurrentThread_iff_last_set_same_id_witness :
    (∀ a b, distinctIds.pthread_equal a b ≠ 0 ↔ a = b)
    ∧ (∀ t : Thread, (fun caller : Thread => caller + 1) t ≠ 0)
    ∧ (runHistory distinctIds { m_id := 0, m_isValid := false }
        ([.SetToCurrentThread 3, .Clear] ++ [.SetToCurrentThread 7])).IsCurrentThread
          distinctIds 7 = true
    ∧ (runHistory64 (fun caller => caller + 1) { m_uiId := 0 }
        ([.SetToCurrentThread 3, .Clear] ++ [.SetToCurrentThread 7])).IsCurrentThread
          (fun caller => caller + 1) 7 = true :=
  ⟨by intro a b; simp [distinctIds], by intro t; simp,
    (isCurrentThread_iff_last_set_same_id distinctIds (by intro a b; simp [distinctIds])
      (fun caller => caller + 1) (by intro t; simp) { m_id := 0, m_isValid := false }
      { m_uiId := 0 } [.SetToCurrentThread 3, .Clear] (.SetToCurrentThread 7) 7).1.mpr
      ⟨7, rfl, rfl⟩,
    (isCurrentThread_iff_last_set_same_id distinctIds (by intro a b; simp [distinctIds])
      (fun caller => caller + 1) (by intro t; simp) { m_id := 0, m_isValid := false }
      { m_uiId := 0 } [.SetToCurrentThread 3, .Clear] (.SetToCurrentThread 7) 7).2.1.mpr
      ⟨7, rfl, rfl⟩⟩

end GcEnv

namespace NativeContext

/-- The enumeration is the left fold of the visitor over the thirteen slots
`R0`, ..., `R12`. -/
theorem forEach_eq_foldl {σ : Type} (c : NATIVE_CONTEXT) (lambda : Slot → σ → σ) (w : σ) :
    c.ForEachPossibleObjectRef lambda w
      = List.foldl (fun acc slot => lambda slot acc) w
          [Slot.R0, .R1, .R2, .R3, .R4, .R5, .R6, .R7, .R8, .R9, .R10, .R11, .R12] := rfl

theorem visitedSlots_eq (c : NATIVE_CONTEXT) :
    visitedSlots c
      = [Slot.R0, .R1, .R2, .R3, .R4, .R5, .R6, .R7, .R8, .R9, .R10, .R11, .R12] := rfl

theorem load_store_same (c : NATIVE_CONTEXT) (slot : Slot) (v : Nat) :
    (c.store slot v).load slot = v := by
  cases slot <;> rfl

theorem load_store_other (c : NATIVE_CONTEXT) (s1 s2 : Slot) (v : Nat) (h : s2 ≠ s1) :
    (c.store s1 v).load s2 = c.load s2 := by
  cases s1 <;> cases s2 <;> first | rfl | exact absurd rfl h

/-- Claim C5: for every snapshot and all 32-bit addresses `ip` and `sp`, after
`SetIp(ip)` followed by `SetSp(sp)`, `GetIp()` returns `ip`, `GetSp()` returns
`sp`, and `R0`..`R12` and `Lr` hold the values they held before. -/
theorem setIp_setSp_frame (c : NATIVE_CONTEXT) (ip sp : Nat)
    (hip : ip < 4294967296) (hsp : sp < 4294967296) :
    ((c.SetIp ip).SetSp sp).GetIp = ip
    ∧ ((c.SetIp ip).SetSp sp).GetSp = sp
    ∧ ((c.SetIp ip).SetSp sp).ctx = { c.ctx with Pc := ip, Sp := sp }
    ∧ (∀ slot : Slot, slot ≠ Slot.Pc → slot ≠ Slot.Sp →
        ((c.SetIp ip).SetSp sp).load slot = c.load slot) := by
  have h1 : toUInt32 ip = ip := Nat.mod_eq_of_lt hip
  have h2 : toUInt32 sp = sp := Nat.mod_eq_of_lt hsp
  refine ⟨?_, ?_, ?_, ?_⟩
  · simp [NATIVE_CONTEXT.SetIp, NATIVE_CONTEXT.SetSp, NATIVE_CONTEXT.GetIp, NATIVE_CONTEXT.Pc,
      NATIVE_CONTEXT.Sp, NATIVE_CONTEXT.store, NATIVE_CONTEXT.load, h1]
  · simp [NATIVE_CONTEXT.SetIp, NATIVE_CONTEXT.SetSp, NATIVE_CONTEXT.GetSp, NATIVE_CONTEXT.Pc,
      NATIVE_CONTEXT.Sp, NATIVE_CONTEXT.store, NATIVE_CONTEXT.load, h2]
  · simp [NATIVE_CONTEXT.SetIp, NATIVE_CONTEXT.SetSp, NATIVE_CONTEXT.Pc,
      NATIVE_CONTEXT.Sp, NATIVE_CONTEXT.store, h1, h2]
  · intro slot hpc hsp2
    simp only [NATIVE_CONTEXT.SetIp, NATIVE_CONTEXT.SetSp, NATIVE_CONTEXT.Pc, NATIVE_CONTEXT.Sp]
    rw [load_store_other _ _ _ _ hsp2, load_store_other _ _ _ _ hpc]

/-- The scenario of the specification: `Pc = 0x1000`, `Sp = 0x2000`, then
`SetIp(0x2004)` and `SetSp(0x1FF0)`. -/
theorem setIp_setSp_frame_witness :
    (0x2004 < 4294967296) ∧ (0x1FF0 < 4294967296)
    ∧ ((NATIVE_CONTEXT.mk ⟨0x1000, 0x2000, 14, 0, 1, 2, 3, 4, 5, 6, 7, 8, 9, 10, 11, 12⟩).SetIp
        0x2004 |>.SetSp 0x1FF0).GetIp = 0x2004
    ∧ ((NATIVE_CONTEXT.mk ⟨0x1000, 0x2000, 14, 0, 1, 2, 3, 4, 5, 6, 7, 8, 9, 10, 11, 12⟩).SetIp
        0x2004 |>.SetSp 0x1FF0).GetSp = 0x1FF0
    ∧ ((NATIVE_CONTEXT.mk ⟨0x1000, 0x2000, 14, 0, 1, 2, 3, 4, 5, 6, 7, 8, 9, 10, 11, 12⟩).SetIp
        0x2004 |>.SetSp 0x1FF0).ctx
        = ⟨0x2004, 0x1FF0, 14, 0, 1, 2, 3, 4, 5, 6, 7, 8, 9, 10, 11, 12⟩ :=
  ⟨by decide, by decide,
    (setIp_setSp_frame ⟨⟨0x1000, 0x2000, 14, 0, 1, 2, 3, 4, 5, 6, 7, 8, 9, 10, 11, 12⟩⟩
      0x2004 0x1FF0 (by decide) (by decide)).1,
    (setIp_setSp_frame ⟨⟨0x1000, 0x2000, 14, 0, 1, 2, 3, 4, 5, 6, 7, 8, 9, 10, 11, 12⟩⟩
      0x2004 0x1FF0 (by decide) (by decide)).2.1,
    (setIp_setSp_frame ⟨⟨0x1000, 0x2000, 14, 0, 1, 2, 3, 4, 5, 6, 7, 8, 9, 10, 11, 12⟩⟩
      0x2004 0x1FF0 (by decide) (by decide)).2.2.1⟩

/-- Claim C6 (every register slot of the snapshot other than `Pc` and `Sp`, the
link register `Lr` included, is handed to the visitor) evaluated on the code: at
a snapshot in which `R0` and `Lr` both hold the reference `0x20000100`, the slot
of `Lr` is not among the slots handed to the visitor, so the requirement fails;
a visitor that relocates `0x20000100` to `0x20000200` in every slot it is handed
updates `R0` and leaves the stale reference in `Lr`. -/
theorem lr_slot_not_visited :
    ¬ (∀ slot : Slot, slot ≠ Slot.Pc → slot ≠ Slot.Sp →
        slot ∈ visitedSlots
          ⟨⟨0x1000, 0x2000, 0x20000100, 0x20000100, 1, 2, 3, 4, 5, 6, 7, 8, 9, 10, 11, 12⟩⟩)
    ∧ Slot.Lr ∉ visitedSlots
        ⟨⟨0x1000, 0x2000, 0x20000100, 0x20000100, 1, 2, 3, 4, 5, 6, 7, 8, 9, 10, 11, 12⟩⟩
    ∧ visitedSlots
        ⟨⟨0x1000, 0x2000, 0x20000100, 0x20000100, 1, 2, 3, 4, 5, 6, 7, 8, 9, 10, 11, 12⟩⟩
        = [Slot.R0, .R1, .R2, .R3, .R4, .R5, .R6, .R7, .R8, .R9, .R10, .R11, .R12]
    ∧ ((NATIVE_CONTEXT.mk
          ⟨0x1000, 0x2000, 0x20000100, 0x20000100, 1, 2, 3, 4, 5, 6, 7, 8, 9, 10, 11, 12⟩).ForEachPossibleObjectRef
        (slotVisitor (fun (u : Unit) x => (u, if x = 0x20000100 then 0x20000200 else x)))
        (⟨⟨0x1000, 0x2000, 0x20000100, 0x20000100, 1, 2, 3, 4, 5, 6, 7, 8, 9, 10, 11, 12⟩⟩, ())).1.ctx
        = ⟨0x1000, 0x2000, 0x20000100, 0x20000200, 1, 2, 3, 4, 5, 6, 7, 8, 9, 10, 11, 12⟩ := by
  refine ⟨?_, by decide, rfl, by decide⟩
  intro h
  exact absurd (h Slot.Lr (by decide) (by decide)) (by decide)

/-- Claim C7: for every snapshot and every visitor, `ForEachPossibleObjectRef`
calls the visitor exactly 13 times, once for each of `R0`, `R1`, ..., `R12` in
that order, with pairwise distinct slots, and never hands it the slot of the
program counter or of the stack pointer. -/
theorem forEach_visits_r0_to_r12_once {σ : Type} (c : NATIVE_CONTEXT) (lambda : Slot → σ → σ)
    (w : σ) :
    c.ForEachPossibleObjectRef lambda w
      = List.foldl (fun acc slot => lambda slot acc) w
          [c.R0, c.R1, c.R2, c.R3, c.R4, c.R5, c.R6, c.R7, c.R8, c.R9, c.R10, c.R11, c.R12]
    ∧ visitedSlots c
      = [c.R0, c.R1, c.R2, c.R3, c.R4, c.R5, c.R6, c.R7, c.R8, c.R9, c.R10, c.R11, c.R12]
    ∧ (visitedSlots c).length = 13
    ∧ (visitedSlots c).Nodup
    ∧ c.Pc ∉ visitedSlots c
    ∧ c.Sp ∉ visitedSlots c := by
  refine ⟨rfl, rfl, rfl, ?_, ?_, ?_⟩
  · rw [visitedSlots_eq]; decide
  · rw [visitedSlots_eq]; simp only [NATIVE_CONTEXT.Pc]; decide
  · rw [visitedSlots_eq]; simp only [NATIVE_CONTEXT.Sp]; decide

end NativeContext

namespace NativeContext

/-- Visiting slots other than `s` with a slot visitor leaves the content of `s`. -/
theorem foldl_slotVisitor_load {τ : Type} (f : τ → Nat → τ × Nat) (s : Slot)
    (slots : List Slot) (hs : s ∉ slots) (w : NATIVE_CONTEXT × τ) :
    (List.foldl (fun acc slot => slotVisitor f slot acc) w slots).1.load s = w.1.load s := by
  induction slots generalizing w with
  | nil => rfl
  | cons x xs ih =>
    rw [List.foldl_cons, ih (fun h => hs (List.mem_cons_of_mem _ h))]
    simp only [slotVisitor]
    exact load_store_other _ _ _ _ (fun h => hs (h ▸ List.mem_cons_self _ _))

theorem store_load_self (c : NATIVE_CONTEXT) (s : Slot) : c.store s (c.load s) = c := by
  cases s <;> rfl

/-- A visitor that only records the values it finds leaves the snapshot as it is
and appends the values of the slots in the order of the visits. -/
theorem foldl_recording (slots : List Slot) (w : NATIVE_CONTEXT × List Nat) :
    List.foldl (fun acc slot => slotVisitor (fun (log : List Nat) x => (log ++ [x], x)) slot acc)
        w slots
      = (w.1, w.2 ++ slots.map w.1.load) := by
  induction slots generalizing w with
  | nil => simp
  | cons x xs ih =>
    rw [List.foldl_cons, ih]
    simp [slotVisitor, store_load_self]

/-- Claim C10: for every snapshot and every 32-bit value `v`: what the visitor
leaves in the first slot handed to it by `ForEachPossibleObjectRef` is what `R0()`
reads afterwards, and after `SetArg0Reg(v)` the first slot handed to the visitor
holds `v`; the second slot and `SetArg1Reg` / `R1()` are related in the same way;
`SetArg0Reg` and `SetArg1Reg` change no register other than `R0` and `R1`
respectively. -/
theorem arg_registers_alias_first_slots {τ : Type} (c : NATIVE_CONTEXT) (v : Nat)
    (hv : v < 4294967296) (f : τ → Nat → τ × Nat) (t : τ) :
    ((visitedSlots c)[0]? = some c.R0 ∧ (visitedSlots c)[1]? = some c.R1)
    ∧ (c.ForEachPossibleObjectRef (slotVisitor f) (c, t)).1.load c.R0 = (f t (c.load c.R0)).2
    ∧ (c.ForEachPossibleObjectRef (slotVisitor f) (c, t)).1.load c.R1
        = (f (f t (c.load c.R0)).1 (c.load c.R1)).2
    ∧ (∀ s, (visitedSlots c)[0]? = some s →
        (c.store s v).load c.R0 = v ∧ (c.SetArg0Reg v).load s = v)
    ∧ (∀ s, (visitedSlots c)[1]? = some s →
        (c.store s v).load c.R1 = v ∧ (c.SetArg1Reg v).load s = v)
    ∧ ((c.ForEachPossibleObjectRef (slotVisitor (fun (log : List Nat) x => (log ++ [x], x)))
          (c.SetArg0Reg v, [])).2[0]? = some v)
    ∧ ((c.ForEachPossibleObjectRef (slotVisitor (fun (log : List Nat) x => (log ++ [x], x)))
          (c.SetArg1Reg v, [])).2[1]? = some v)
    ∧ (∀ slot : Slot, slot ≠ c.R0 → (c.SetArg0Reg v).load slot = c.load slot)
    ∧ (∀ slot : Slot, slot ≠ c.R1 → (c.SetArg1Reg v).load slot = c.load slot) := by
  have hv2 : toUInt32 v = v := Nat.mod_eq_of_lt hv
  refine ⟨⟨rfl, rfl⟩, ?_, ?_, ?_, ?_, ?_, ?_, ?_, ?_⟩
  · rw [forEach_eq_foldl, List.foldl_cons,
      foldl_slotVisitor_load f _ _ (by simp [NATIVE_CONTEXT.R0])]
    simp only [slotVisitor, NATIVE_CONTEXT.R0]
    exact load_store_same _ _ _
  · rw [forEach_eq_foldl, List.foldl_cons, List.foldl_cons,
      foldl_slotVisitor_load f _ _ (by simp [NATIVE_CONTEXT.R1])]
    simp only [slotVisitor, NATIVE_CONTEXT.R0, NATIVE_CONTEXT.R1]
    rw [load_store_same, load_store_other _ _ _ _ (by decide)]
  · intro s hs
    rw [visitedSlots_eq] at hs
    simp only [List.getElem?_cons_zero, Option.some.injEq] at hs
    subst hs
    simp only [NATIVE_CONTEXT.SetArg0Reg, NATIVE_CONTEXT.R0, hv2]
    exact ⟨load_store_same _ _ _, load_store_same _ _ _⟩
  · intro s hs
    rw [visitedSlots_eq] at hs
    simp only [List.getElem?_cons_succ, List.getElem?_cons_zero, Option.some.injEq] at hs
    subst hs
    simp only [NATIVE_CONTEXT.SetArg1Reg, NATIVE_CONTEXT.R1, hv2]
    exact ⟨load_store_same _ _ _, load_store_same _ _ _⟩
  · rw [forEach_eq_foldl, foldl_recording]
    simp only [NATIVE_CONTEXT.SetArg0Reg, NATIVE_CONTEXT.R0, hv2, List.map_cons, List.nil_append,
      List.getElem?_cons_zero]
    rw [load_store_same]
  · rw [forEach_eq_foldl, foldl_recording]
    simp only [NATIVE_CONTEXT.SetArg1Reg, NATIVE_CONTEXT.R1, hv2, List.map_cons, List.nil_append,
      List.getElem?_cons_succ, List.getElem?_cons_zero]
    rw [load_store_same]
  · intro slot h
    exact load_store_other _ _ _ _ h
  · intro slot h
    exact load_store_other _ _ _ _ h

/-- The value `0xCAFE` passed in the first argument register of a snapshot. -/
theorem arg_registers_alias_first_slots_witness :
    (0xCAFE < 4294967296)
    ∧ ((NATIVE_CONTEXT.mk ⟨0x1000, 0x2000, 14, 0, 1, 2, 3, 4, 5, 6, 7, 8, 9, 10, 11, 12⟩).ForEachPossibleObjectRef
        (slotVisitor (fun (n : Nat) x => (n + 1, if n = 0 then 0xCAFE else x)))
        (⟨⟨0x1000, 0x2000, 14, 0, 1, 2, 3, 4, 5, 6, 7, 8, 9, 10, 11, 12⟩⟩, 0)).1.load Slot.R0
        = 0xCAFE :=
  ⟨by decide,
    (arg_registers_alias_first_slots
      ⟨⟨0x1000, 0x2000, 14, 0, 1, 2, 3, 4, 5, 6, 7, 8, 9, 10, 11, 12⟩⟩ 0xCAFE (by decide)
      (fun (n : Nat) x => (n + 1, if n = 0 then 0xCAFE else x)) 0).2.1⟩

end NativeContext

namespace Minipal

/-- Claim C9: on the pthread backend, for all status codes returned by
`pthread_mutexattr_init`, `pthread_mutexattr_settype` and `pthread_mutex_init`,
`minipal_mutex_init` returns `true` exactly when each of these that it called
returned `0`, so it returns `false` only when one of them failed;
`pthread_mutex_init` is called only when the two attribute calls returned `0`;
the attribute object is destroyed exactly when `pthread_mutexattr_init` returned
`0` (the status of `pthread_mutexattr_destroy` itself is discarded and has no
influence; when it is `0`, as it is for an attribute object that was set up, the
result is `true` exactly when every primitive called returned `0`); on the
FreeRTOS and critical-section backends the result is `true`. -/
theorem init_reports_backend_failure (status : PthreadStatus) (mtx : minipal_mutex) :
    ((minipal_mutex_init .pthread status mtx).ret = true
      ↔ ∀ p ∈ (minipal_mutex_init .pthread status mtx).calls,
          p ≠ Primitive.pthread_mutexattr_destroy → status.returned p = 0)
    ∧ ((minipal_mutex_init .pthread status mtx).ret = true
      ↔ (status.mutexattr_init = 0 ∧ status.mutexattr_settype = 0 ∧ status.mutex_init = 0))
    ∧ ((minipal_mutex_init .pthread status mtx).ret = false
      → ∃ p ∈ (minipal_mutex_init .pthread status mtx).calls,
          p ≠ Primitive.pthread_mutexattr_destroy ∧ status.returned p ≠ 0)
    ∧ (Primitive.pthread_mutex_init ∈ (minipal_mutex_init .pthread status mtx).calls
      ↔ (status.mutexattr_init = 0 ∧ status.mutexattr_settype = 0))
    ∧ ((minipal_mutex_init .pthread status mtx).calls.count Primitive.pthread_mutexattr_destroy
      = if status.mutexattr_init = 0 then 1 else 0)
    ∧ (∀ d : Int, minipal_mutex_init .pthread { status with mutexattr_destroy := d } mtx
        = minipal_mutex_init .pthread status mtx)
    ∧ (status.mutexattr_destroy = 0 →
        ((minipal_mutex_init .pthread status mtx).ret = true
          ↔ ∀ p ∈ (minipal_mutex_init .pthread status mtx).calls, status.returned p = 0))
    ∧ (minipal_mutex_init .freertos status mtx).ret = true
    ∧ (minipal_mutex_init .windows status mtx).ret = true := by
  by_cases h1 : status.mutexattr_init = 0 <;> by_cases h2 : status.mutexattr_settype = 0 <;>
    by_cases h3 : status.mutex_init = 0 <;>
    simp [minipal_mutex_init, PthreadStatus.returned, h1, h2, h3]

end Minipal

namespace Minipal

open GcEnv (Thread)

/-! ### The lock as a state machine -/

theorem freshLock_pthread :
    freshLock .pthread = .pthread ⟨.PTHREAD_MUTEX_RECURSIVE, none, 0⟩ := by
  decide

theorem freshLock_windows : freshLock .windows = .critical_section ⟨none, 0⟩ := by
  decide

theorem freshLock_freertos : freshLock .freertos = .placeholder 0 := by
  decide

theorem runLock_pthread_first_enter (T : Thread) (rest : List LockCall) :
    runLock (.pthread ⟨.PTHREAD_MUTEX_RECURSIVE, none, 0⟩) (.enter T :: rest)
      = runLock (.pthread ⟨.PTHREAD_MUTEX_RECURSIVE, some T, 1⟩) rest := by
  simp [runLock, minipal_mutex_enter, pthread_mutex_lock]

theorem runLock_pthread_enters (T : Thread) (k n : Nat) (rest : List LockCall) :
    runLock (.pthread ⟨.PTHREAD_MUTEX_RECURSIVE, some T, n⟩)
        (List.replicate k (.enter T) ++ rest)
      = runLock (.pthread ⟨.PTHREAD_MUTEX_RECURSIVE, some T, n + k⟩) rest := by
  induction k generalizing n with
  | zero => simp
  | succ k ih =>
    rw [List.replicate_succ, List.cons_append]
    simp only [runLock, minipal_mutex_enter, pthread_mutex_lock, if_true, Option.map_some']
    rw [ih]
    congr 3
    omega

theorem runLock_pthread_leaves (T : Thread) (j n : Nat) (hj : j < n) (rest : List LockCall) :
    runLock (.pthread ⟨.PTHREAD_MUTEX_RECURSIVE, some T, n⟩)
        (List.replicate j (.leave T) ++ rest)
      = runLock (.pthread ⟨.PTHREAD_MUTEX_RECURSIVE, some T, n - j⟩) rest := by
  induction j generalizing n with
  | zero => simp
  | succ j ih =>
    rw [List.replicate_succ, List.cons_append]
    have h1 : ¬ n ≤ 1 := by omega
    simp only [runLock, minipal_mutex_leave, pthread_mutex_unlock, if_true, h1, if_false]
    rw [ih (n - 1) (by omega)]
    congr 3
    omega

theorem runLock_pthread_last_leave (T : Thread) (rest : List LockCall) :
    runLock (.pthread ⟨.PTHREAD_MUTEX_RECURSIVE, some T, 1⟩) (.leave T :: rest)
      = runLock (.pthread ⟨.PTHREAD_MUTEX_RECURSIVE, none, 0⟩) rest := by
  simp [runLock, minipal_mutex_leave, pthread_mutex_unlock]

theorem runLock_pthread_other_blocked (T B : Thread) (hTB : T ≠ B) (n : Nat) :
    runLock (.pthread ⟨.PTHREAD_MUTEX_RECURSIVE, some T, n⟩) [.enter B] = none := by
  simp [runLock, minipal_mutex_enter, pthread_mutex_lock, hTB]

theorem runLock_cs_first_enter (T : Thread) (rest : List LockCall) :
    runLock (.critical_section ⟨none, 0⟩) (.enter T :: rest)
      = runLock (.critical_section ⟨some T, 1⟩) rest := by
  simp [runLock, minipal_mutex_enter, EnterCriticalSection]

theorem runLock_cs_enters (T : Thread) (k n : Nat) (rest : List LockCall) :
    runLock (.critical_section ⟨some T, n⟩) (List.replicate k (.enter T) ++ rest)
      = runLock (.critical_section ⟨some T, n + k⟩) rest := by
  induction k generalizing n with
  | zero => simp
  | succ k ih =>
    rw [List.replicate_succ, List.cons_append]
    simp only [runLock, minipal_mutex_enter, EnterCriticalSection, if_true, Option.map_some']
    rw [ih]
    congr 3
    omega

theorem runLock_cs_leaves (T : Thread) (j n : Nat) (hj : j < n) (rest : List LockCall) :
    runLock (.critical_section ⟨some T, n⟩) (List.replicate j (.leave T) ++ rest)
      = runLock (.critical_section ⟨some T, n - j⟩) rest := by
  induction j generalizing n with
  | zero => simp
  | succ j ih =>
    rw [List.replicate_succ, List.cons_append]
    have h1 : ¬ n ≤ 1 := by omega
    simp only [runLock, minipal_mutex_leave, LeaveCriticalSection, if_true, h1, if_false]
    rw [ih (n - 1) (by omega)]
    congr 3
    omega

theorem runLock_cs_last_leave (T : Thread) (rest : List LockCall) :
    runLock (.critical_section ⟨some T, 1⟩) (.leave T :: rest)
      = runLock (.critical_section ⟨none, 0⟩) rest := by
  simp [runLock, minipal_mutex_leave, LeaveCriticalSection]

theorem runLock_cs_other_blocked (T B : Thread) (hTB : T ≠ B) (n : Nat) :
    runLock (.critical_section ⟨some T, n⟩) [.enter B] = none := by
  simp [runLock, minipal_mutex_enter, EnterCriticalSection, hTB]

/-- On the FreeRTOS backend no sequence of calls ever blocks. -/
theorem runLock_placeholder (v : Int) (calls : List LockCall) :
    runLock (.placeholder v) calls = some (.placeholder v) := by
  induction calls with
  | nil => rfl
  | cons c cs ih =>
    cases c <;> simpa [runLock, minipal_mutex_enter, minipal_mutex_leave] using ih

theorem replicate_pred_snoc (j : Nat) (hj : 1 ≤ j) (c : LockCall) :
    List.replicate j c = List.replicate (j - 1) c ++ [c] := by
  obtain ⟨m, rfl⟩ : ∃ m, j = m + 1 := ⟨j - 1, by omega⟩
  simp [List.replicate_succ']

/-- On the pthread backend: after `k` enters by `T` and `j ≤ k` leaves, another
thread can enter exactly when `j = k`. -/
theorem pthread_other_enters_iff (T B : Thread) (hTB : T ≠ B) (k j : Nat) (hk : 1 ≤ k)
    (hj : j ≤ k) :
    (runLock (freshLock .pthread)
        (List.replicate k (.enter T) ++ (List.replicate j (.leave T) ++ [.enter B]))).isSome = true
      ↔ j = k := by
  obtain ⟨m, rfl⟩ : ∃ m, k = m + 1 := ⟨k - 1, by omega⟩
  rw [freshLock_pthread, List.replicate_succ, List.cons_append, runLock_pthread_first_enter,
    runLock_pthread_enters]
  by_cases hjk : j = m + 1
  · subst hjk
    rw [replicate_pred_snoc (m + 1) (by omega), List.append_assoc,
      runLock_pthread_leaves T _ _ (by omega)]
    have h1 : 1 + m - (m + 1 - 1) = 1 := by omega
    rw [h1, List.singleton_append, runLock_pthread_last_leave]
    simp [runLock, minipal_mutex_enter, pthread_mutex_lock]
  · rw [runLock_pthread_leaves T _ _ (by omega), runLock_pthread_other_blocked T B hTB]
    simp [hjk]

/-- On the critical-section backend: after `k` enters by `T` and `j ≤ k` leaves,
another thread can enter exactly when `j = k`. -/
theorem cs_other_enters_iff (T B : Thread) (hTB : T ≠ B) (k j : Nat) (hk : 1 ≤ k)
    (hj : j ≤ k) :
    (runLock (freshLock .windows)
        (List.replicate k (.enter T) ++ (List.replicate j (.leave T) ++ [.enter B]))).isSome = true
      ↔ j = k := by
  obtain ⟨m, rfl⟩ : ∃ m, k = m + 1 := ⟨k - 1, by omega⟩
  rw [freshLock_windows, List.replicate_succ, List.cons_append, runLock_cs_first_enter,
    runLock_cs_enters]
  by_cases hjk : j = m + 1
  · subst hjk
    rw [replicate_pred_snoc (m + 1) (by omega), List.append_assoc,
      runLock_cs_leaves T _ _ (by omega)]
    have h1 : 1 + m - (m + 1 - 1) = 1 := by omega
    rw [h1, List.singleton_append, runLock_cs_last_leave]
    simp [runLock, minipal_mutex_enter, EnterCriticalSection]
  · rw [runLock_cs_leaves T _ _ (by omega), runLock_cs_other_blocked T B hTB]
    simp [hjk]

theorem pthread_owner_reenters (T : Thread) (k : Nat) :
    (runLock (freshLock .pthread) (List.replicate (k + 1) (.enter T))).isSome = true := by
  rw [freshLock_pthread, List.replicate_succ, runLock_pthread_first_enter]
  have := runLock_pthread_enters T k 1 []
  rw [List.append_nil] at this
  rw [this]
  rfl

theorem cs_owner_reenters (T : Thread) (k : Nat) :
    (runLock (freshLock .windows) (List.replicate (k + 1) (.enter T))).isSome = true := by
  rw [freshLock_windows, List.replicate_succ, runLock_cs_first_enter]
  have := runLock_cs_enters T k 1 []
  rw [List.append_nil] at this
  rw [this]
  rfl

end Minipal

namespace Minipal

open GcEnv (Thread)

/-- Claim C8 as stated fails on the FreeRTOS backend: thread `0` enters three
times and leaves not at all, and the `minipal_mutex_enter` of thread `1` returns
all the same, although `0` leaves have been made and not `3`. -/
theorem freertos_enter_never_waits :
    ¬ ((runLock (freshLock .freertos)
          (List.replicate 3 (LockCall.enter 0)
            ++ (List.replicate 0 (LockCall.leave 0) ++ [LockCall.enter 1]))).isSome = true
        ↔ (0 : Nat) = 3) := by
  decide

/-- Claim C8, amended: on the pthread and critical-section backends a lock that
thread `T` has entered `k ≥ 1` times can be entered again by `T` without blocking,
and after `j ≤ k` leaves by `T` the `minipal_mutex_enter` of another thread
returns exactly when `j = k`.  On the FreeRTOS backend `minipal_mutex_enter` and
`minipal_mutex_leave` do nothing: no call ever blocks, whatever was entered
before. -/
theorem recursive_lock_contract (backend : Backend) (hb : backend ≠ .freertos)
    (T B : Thread) (hTB : T ≠ B) (k j : Nat) (hk : 1 ≤ k) (hj : j ≤ k) :
    (runLock (freshLock backend) (List.replicate (k + 1) (.enter T))).isSome = true
    ∧ ((runLock (freshLock backend)
          (List.replicate k (.enter T) ++ (List.replicate j (.leave T) ++ [.enter B]))).isSome
        = true ↔ j = k)
    ∧ (∀ calls : List LockCall, (runLock (freshLock .freertos) calls).isSome = true) := by
  refine ⟨?_, ?_, ?_⟩
  · cases backend with
    | freertos => exact absurd rfl hb
    | windows => exact cs_owner_reenters T k
    | pthread => exact pthread_owner_reenters T k
  · cases backend with
    | freertos => exact absurd rfl hb
    | windows => exact cs_other_enters_iff T B hTB k j hk hj
    | pthread => exact pthread_other_enters_iff T B hTB k j hk hj
  · intro calls
    rw [freshLock_freertos, runLock_placeholder]
    rfl

/-- The scenario of the specification on the pthread backend: thread `0` enters
three times; after two leaves the enter of thread `1` does not return, after the
third it does. -/
theorem recursive_lock_contract_witness :
    Backend.pthread ≠ Backend.freertos ∧ (0 : Thread) ≠ 1 ∧ 1 ≤ 3 ∧ 2 ≤ 3 ∧ 3 ≤ 3
    ∧ (runLock (freshLock .pthread)
        (List.replicate 3 (.enter 0) ++ (List.replicate 2 (.leave 0) ++ [.enter 1]))).isSome
        = false
    ∧ (runLock (freshLock .pthread)
        (List.replicate 3 (.enter 0) ++ (List.replicate 3 (.leave 0) ++ [.enter 1]))).isSome
        = true :=
  ⟨by decide, by decide, by decide, by decide, by decide,
    Bool.eq_false_iff.mpr (fun h =>
      absurd ((recursive_lock_contract .pthread (by decide) 0 1 (by decide) 3 2 (by decide)
        (by decide)).2.1.mp h) (by decide)),
    (recursive_lock_contract .pthread (by decide) 0 1 (by decide) 3 3 (by decide)
      (by decide)).2.1.mpr rfl⟩

end Minipal
